import Mathlib

set_option maxRecDepth 2000

/-!
Verification of the build-kg extraction-to-graph pipeline.

This file shallowly embeds, in Lean, the parts of the build-kg sources that
the specified properties talk about:

* `src/build_kg/domain.py` — `_deep_merge`, the profile/ontology data model,
  and `build_prompt` with its two prompt renderers;
* `src/build_kg/parse_batch.py` — `BatchProcessor._escape_cypher`,
  `BatchProcessor.load_to_graph_generic`, `BatchProcessor.process_results`
  (its per-line classification loop) and `BatchMonitor.check_status`;
* `src/build_kg/id_extractors.py` — `ProvisionIDExtractor` (`extract`,
  `extract_from_canonical_locator`, `extract_from_text`, `_try_pattern`,
  `_is_excluded`, `_looks_like_id`) and `ProvisionIDValidator.validate`.

Modelling conventions:

* Python JSON values are modelled by the inductive `JVal`; Python dicts by
  insertion-ordered association lists (`JDict`).  JSON floats are not needed
  by any property under study, so `JVal.num` carries `Int`.
* Compiled regex objects held in extractor state are modelled as opaque
  match functions (`String → Option String` for `search` returning group 1,
  `String → Bool` for `fullmatch`/`match`), because the pattern set is
  profile-configurable data, not fixed code.  The specific built-in regexes
  a property needs (`\b\d+\s*(mg|g|ml|kg|mcg)\b`, the default format rules,
  `^\d+$`, `^\d+(?:\.\d+)+$`, `\d`, `[A-Za-z]`) are implemented concretely
  as character-level recognizers; Python's `$` also accepts a position just
  before one trailing newline, which the recognizers reproduce via
  `dollarEnd`.
* Python floats `0.95`, `0.85`, `0.80`, `0.70`, `0.0` used as confidences
  are represented in exact hundredths (`Nat`); every comparison the code
  performs on them (`>= 0.80`) has the same outcome.
* Database / network side effects are modelled as explicit data: graph
  mutations become a list of `GraphOp`, the loader outcome consumed by
  `process_results` becomes a function parameter, and batch polling becomes
  a fuel-indexed event trace.
-/

namespace BuildKG

/-! ## JSON-like values (Python `json.loads` output) -/

/-- A JSON value as produced by `json.loads` / `yaml.safe_load`.
Dicts are insertion-ordered association lists, mirroring Python `dict`.
Numbers are modelled as integers (no property under study involves a
float-valued JSON field). -/
inductive JVal where
  | null
  | bool (b : Bool)
  | num (n : Int)
  | str (s : String)
  | arr (xs : List JVal)
  | obj (kvs : List (String × JVal))

/-- A Python dict with JSON values: an insertion-ordered association list. -/
abbrev JDict := List (String × JVal)

/-- First-match association lookup: Python `d[k]` / `d.get(k)` on a dict
represented as an ordered association list. -/
def jlookup : JDict → String → Option JVal
  | [], _ => none
  | (k, v) :: rest, key => if k = key then some v else jlookup rest key

/-- Generic association-list lookup (Python `d.get(k)` for non-JSON dicts). -/
def assocLookup {α : Type} : List (String × α) → String → Option α
  | [], _ => none
  | (k, v) :: rest, key => if k = key then some v else assocLookup rest key

/-- Python truthiness of a JSON value (`if not parsed_data.get(...)`). -/
def pyTruthy : JVal → Bool
  | .null => false
  | .bool b => b
  | .num n => decide (n ≠ 0)
  | .str s => decide (s ≠ "")
  | .arr xs => !xs.isEmpty
  | .obj kvs => !kvs.isEmpty

/-! ## `domain._deep_merge` (src/build_kg/domain.py lines 138–151)

```python
def _deep_merge(base: dict, override: dict) -> dict:
    merged = {}
    for key, value in override.items():
        if key in base and isinstance(base[key], dict) and isinstance(value, dict):
            merged[key] = _deep_merge(base[key], value)
        else:
            merged[key] = value
    for key, value in base.items():
        if key not in merged:
            merged[key] = value
    return merged
```

After the first loop, `merged` holds exactly the override's keys (in the
override's order), so the second loop's `key not in merged` test is
`key not in override` for dict inputs (whose keys are unique). -/

/-- Does the dict contain the key? (Python `key in d`.) -/
def containsKey (d : JDict) (key : String) : Bool :=
  (jlookup d key).isSome

mutual

/-- Model of `domain._deep_merge`: override keys first (recursing where both sides
are dicts), then base-only keys. -/
def _deep_merge (base override : JDict) : JDict :=
  _deep_merge_override base override
    ++ base.filter (fun kv => !containsKey override kv.1)
termination_by (sizeOf override, 1)

/-- The first loop of `_deep_merge`: one output entry per override entry,
recursing when the base holds a dict under the same key and the override
value is also a dict. -/
def _deep_merge_override (base : JDict) : JDict → JDict
  | [] => []
  | (k, v) :: rest =>
    (k,
      match jlookup base k, v with
      | some (.obj b), .obj o => .obj (_deep_merge b o)
      | _, _ => v) :: _deep_merge_override base rest
termination_by l => (sizeOf l, 0)

end

/-- What one override entry's value becomes in the merge: recursively merged
when the base holds a dict under the same key and the value is a dict, the
override value unchanged otherwise.  (The body of the first loop of
`_deep_merge`, per entry.) -/
def mergeVal (base : JDict) (k : String) (v : JVal) : JVal :=
  match jlookup base k, v with
  | some (.obj b), .obj o => .obj (_deep_merge b o)
  | _, _ => v

/-! ## Cypher string escaping (src/build_kg/parse_batch.py lines 525–529)

```python
def _escape_cypher(self, value: str) -> str:
    if not isinstance(value, str):
        return str(value)
    return value.replace('\\', '\\\\').replace("'", "\\'").replace('"', '\\"').replace('\n', ' ')
```

(The closure `escape` inside `load_to_graph`, lines 408–415, performs the
same four replacements in the same order.)  `str.replace` with a
single-character pattern rewrites each occurrence of that character
independently; `replaceChar` is that operation on the character list of a
string, and `_escape_cypher` chains the four replacements in the source's
order: backslash first, then single quote, then double quote, then
newline. -/

/-- Python `s.replace(c, r)` for a single-character pattern `c`,
on the character list of the string. -/
def replaceChar (c : Char) (r : List Char) : List Char → List Char
  | [] => []
  | x :: rest => (if x = c then r else [x]) ++ replaceChar c r rest

/-- Model of `BatchProcessor._escape_cypher` on the character list: the source's four
`str.replace` calls applied in the source's order. -/
def escapeCypherChars (l : List Char) : List Char :=
  replaceChar '\n' [' ']
    (replaceChar '"' ['\\', '"']
      (replaceChar '\'' ['\\', '\'']
        (replaceChar '\\' ['\\', '\\'] l)))

/-- Model of `BatchProcessor._escape_cypher` for string input (the non-string branch
`str(value)` is handled at the call sites via `pyStr`). -/
def _escape_cypher (s : String) : String :=
  ⟨escapeCypherChars s.data⟩

/-- Python character-count slicing `s[:n]` (`String.take` over the
character list). -/
def strTake (s : String) (n : Nat) : String :=
  ⟨s.data.take n⟩

/-- What one character contributes to the escaped output; used to state that
the four ordered replacements act as a single left-to-right pass. -/
def escChar (c : Char) : List Char :=
  if c = '\\' then ['\\', '\\']
  else if c = '\'' then ['\\', '\'']
  else if c = '"' then ['\\', '"']
  else if c = '\n' then [' ']
  else [c]

/-- A Cypher-side reader of a backslash-escaped string literal body:
`\x` decodes to `x`; a trailing lone backslash is malformed. -/
def cypherUnescape : List Char → Option (List Char)
  | [] => some []
  | c :: rest =>
    if c = '\\' then
      match rest with
      | [] => none
      | d :: rest2 => (cypherUnescape rest2).map (d :: ·)
    else (cypherUnescape rest).map (c :: ·)

/-! ## Generic graph loader (src/build_kg/parse_batch.py lines 531–592)

`BatchProcessor.load_to_graph_generic(fragment_id, doc_id, parsed_data)` is
modelled as a pure function from the payload's `entities` and
`relationships` arrays (lists of JSON objects — the only shape the function
consumes without raising) to the pair of the boolean it returns and the
list of graph mutations it issued before returning.  `cursor.execute` of a
vertex/edge `CREATE` statement becomes appending a `GraphOp`; a Python
exception inside the `try` block (an `IndexError` from `entity_ids[i]`, or
a `TypeError` from comparing a non-integer `_from_index`/`_to_index`
against `len(entity_ids)`) is the caught-`except` path: the function stops
and returns `False` with the mutations already issued. -/

/-- A property value interpolated into a vertex `CREATE`: numeric values are
embedded raw, everything else is stringified, truncated and escaped. -/
inductive PropVal where
  | strv (s : String)
  | intv (n : Int)
deriving DecidableEq

/-- One graph mutation issued through `cursor.execute`. -/
inductive GraphOp where
  | createVertex (label : String) (props : List (String × PropVal))
  | createEdge (fromLabel fromId edgeLabel toLabel toId : String)
deriving DecidableEq

mutual

/-- Python `str(value)` for a JSON value (`f"{label}_..."`,
`str(value)[:500]`).  Scalars follow `str`; containers follow `repr` of the
elements, as Python's `str` of a list/dict does. -/
def pyStr : JVal → String
  | .null => "None"
  | .bool true => "True"
  | .bool false => "False"
  | .num n => toString n
  | .str s => s
  | .arr xs => "[" ++ pyStrList xs ++ "]"
  | .obj kvs => "\x7b" ++ pyStrObj kvs ++ "\x7d"

/-- Python `repr(value)` for a JSON value (used for container elements). -/
def pyRepr : JVal → String
  | .null => "None"
  | .bool true => "True"
  | .bool false => "False"
  | .num n => toString n
  | .str s => "'" ++ s ++ "'"
  | .arr xs => "[" ++ pyStrList xs ++ "]"
  | .obj kvs => "\x7b" ++ pyStrObj kvs ++ "\x7d"

/-- Comma-joined `repr`s of list elements. -/
def pyStrList : List JVal → String
  | [] => ""
  | [x] => pyRepr x
  | x :: rest => pyRepr x ++ ", " ++ pyStrList rest

/-- Comma-joined `repr`s of dict entries. -/
def pyStrObj : List (String × JVal) → String
  | [] => ""
  | [(k, v)] => "'" ++ k ++ "': " ++ pyRepr v
  | (k, v) :: rest => "'" ++ k ++ "': " ++ pyRepr v ++ ", " ++ pyStrObj rest

end

/-- Python list indexing `l[i]`: non-negative indices from the front,
negative indices from the back; `none` is an `IndexError`. -/
def pyIndex {α : Type} (l : List α) (i : Int) : Option α :=
  if 0 ≤ i then l.get? i.toNat
  else if 0 ≤ (l.length : Int) + i then l.get? ((l.length : Int) + i).toNat
  else none

/-- Model of `entity.get('_label', self.ontology.root_node or 'Entity')`, followed by
the f-string's `str` conversion of the label value. -/
def entityLabel (root_node : String) (entity : JDict) : String :=
  match jlookup entity "_label" with
  | some v => pyStr v
  | none => if root_node = "" then "Entity" else root_node

/-- Model of `entity_id = f"{label}_{fragment_id[:8]}_{idx}"`. -/
def entityId (root_node fragment_id : String) (idx : Nat) (entity : JDict) : String :=
  entityLabel root_node entity ++ "_" ++ strTake fragment_id 8 ++ "_" ++ toString idx

/-- Python `key.startswith('_')`: is the first character an underscore? -/
def keyStartsWithUnderscore (s : String) : Bool :=
  match s.data with
  | c :: _ => c = '_'
  | [] => false

/-- The property list of one entity's vertex `CREATE`: the synthetic id and
the provenance properties, then every non-underscore-prefixed, non-`None`
payload property in dict order — numeric values raw, everything else
stringified, truncated to 500 characters and escaped. -/
def entityProps (fragment_id doc_id eid : String) (entity : JDict) : List (String × PropVal) :=
  [("id", .strv (_escape_cypher eid)),
   ("fragment_id", .strv fragment_id),
   ("doc_id", .strv doc_id)]
  ++ entity.filterMap (fun kv =>
      if keyStartsWithUnderscore kv.1 then none
      else
        match kv.2 with
        | .null => none
        | .num n => some (kv.1, .intv n)
        | v => some (kv.1, .strv (_escape_cypher (strTake (pyStr v) 500))))

/-- The vertex `CREATE` issued for the entity at position `p.1`. -/
def entityVertex (root_node fragment_id doc_id : String) (p : Nat × JDict) : GraphOp :=
  .createVertex (entityLabel root_node p.2)
    (entityProps fragment_id doc_id (entityId root_node fragment_id p.1 p.2) p.2)

/-- The `entity_ids` list accumulated during the first loop:
`(entity_id, label)` per entity, in order. -/
def entityIds (root_node fragment_id : String) (entities : List JDict) : List (String × String) :=
  entities.enum.map (fun p => (entityId root_node fragment_id p.1 p.2, entityLabel root_node p.2))

/-- Model of `rel.get('_label', 'RELATES_TO')` under the f-string's `str`. -/
def relLabel (rel : JDict) : String :=
  match jlookup rel "_label" with
  | some v => pyStr v
  | none => "RELATES_TO"

/-- Model of `rel.get('_from_index', 0)` / `rel.get('_to_index', 0)` as the integer
the subsequent `< len(entity_ids)` comparison sees.  Python `bool` is an
`int` subclass; any other type raises `TypeError` at the comparison,
modelled as `Except.error`. -/
def relIndex (rel : JDict) (key : String) : Except Unit Int :=
  match jlookup rel key with
  | none => .ok 0
  | some (.num n) => .ok n
  | some (.bool b) => .ok (if b then 1 else 0)
  | some _ => .error ()

/-- The relationship loop of `load_to_graph_generic`.  `ids` is the
`entity_ids` list, `acc` the mutations issued so far.  A `TypeError` from a
non-integer index or an `IndexError` from `entity_ids[i]` lands in the
`except` handler: return `False` with the mutations issued so far.  Python's
`and` short-circuits, so `_to_index` is never inspected when
`_from_index < len(entity_ids)` is already false. -/
def processRels (ids : List (String × String)) : List JDict → List GraphOp → Bool × List GraphOp
  | [], acc => (true, acc)
  | rel :: rest, acc =>
    match relIndex rel "_from_index" with
    | .error _ => (false, acc)
    | .ok fi =>
      if fi < (ids.length : Int) then
        match relIndex rel "_to_index" with
        | .error _ => (false, acc)
        | .ok ti =>
          if ti < (ids.length : Int) then
            match pyIndex ids fi, pyIndex ids ti with
            | some ft, some tt =>
              processRels ids rest
                (acc ++ [.createEdge ft.2 ft.1 (relLabel rel) tt.2 tt.1])
            | _, _ => (false, acc)
          else processRels ids rest acc
      else processRels ids rest acc

/-- Model of `BatchProcessor.load_to_graph_generic`, as a function of the payload's
`entities` and `relationships` arrays (each a list of JSON objects; other
payload shapes raise before any mutation and return `False`).  Returns the
boolean result and the mutations issued. -/
def load_to_graph_generic (root_node fragment_id doc_id : String)
    (entities relationships : List JDict) : Bool × List GraphOp :=
  if entities.isEmpty then (false, [])
  else
    processRels (entityIds root_node fragment_id entities) relationships
      (entities.enum.map (entityVertex root_node fragment_id doc_id))

/-- Does a relationship produce an edge, and which one: the per-element
summary of the relationship loop used to state its behaviour when no
relationship aborts the load. -/
def relEdge (ids : List (String × String)) (rel : JDict) : Option GraphOp :=
  match relIndex rel "_from_index", relIndex rel "_to_index" with
  | .ok fi, .ok ti =>
    if fi < (ids.length : Int) ∧ ti < (ids.length : Int) then
      match pyIndex ids fi, pyIndex ids ti with
      | some ft, some tt => some (.createEdge ft.2 ft.1 (relLabel rel) tt.2 tt.1)
      | _, _ => none
    else none
  | _, _ => none

/-- Does one relationship abort the relationship loop by raising inside the
`try` block?  That happens when its `_from_index` is a non-integer
(`TypeError` at the `< len` comparison); or `_from_index` passes the `< n`
check and `_to_index` is a non-integer; or both indices pass the `< n`
checks but at least one is below `-n`, so `entity_ids[i]` raises
`IndexError`.  (An index `≥ n` fails the short-circuiting `and` first, so
nothing after it is evaluated and the relationship is merely skipped.) -/
def relAborts (n : Nat) (rel : JDict) : Bool :=
  match relIndex rel "_from_index" with
  | .error _ => true
  | .ok fi =>
    if fi < (n : Int) then
      match relIndex rel "_to_index" with
      | .error _ => true
      | .ok ti =>
        if ti < (n : Int) then
          decide (fi < -(n : Int)) || decide (ti < -(n : Int))
        else false
    else false

/-- Is the mutation a vertex `CREATE`? -/
def GraphOp.isVertex : GraphOp → Bool
  | .createVertex _ _ => true
  | .createEdge _ _ _ _ _ => false

/-- The synthetic id stored in a vertex `CREATE`'s property list
(always its first property). -/
def GraphOp.vertexIdProp : GraphOp → Option String
  | .createVertex _ (("id", .strv s) :: _) => some s
  | _ => none

/-! ## Provision ID extraction (src/build_kg/id_extractors.py)

`ProvisionIDExtractor` instance state: `PATTERNS` (an ordered dict of
compiled regexes, from the profile or the built-in defaults),
`AUTHORITY_PATTERNS`, `EXCLUSION_PATTERNS`.  A compiled pattern is modelled
by its `search` behaviour — a function returning the first match's group 1,
or `none` — and an exclusion pattern by its `fullmatch` behaviour, a
boolean function.  Confidences are exact rationals. -/

/-- Model of `ExtractionResult` (id_extractors.py lines 11–17).  The float
`confidence` is stored in exact hundredths (`0.95 ↦ 95`): every comparison
the source performs on confidences (`>= 0.80`) has the same outcome. -/
structure ExtractionResult where
  provision_id : String
  confidence : Nat
  method : String
  pattern_name : Option String
deriving DecidableEq

/-- Python `\s` (ASCII part): the whitespace characters `str.strip` and
`\s` agree on for the strings in play. -/
def isPySpace (c : Char) : Bool :=
  c = ' ' || c = '\t' || c = '\n' || c = '\r' || c = '\x0b' || c = '\x0c'

/-- Python `str.strip()` (ASCII whitespace): drop leading and trailing
whitespace characters. -/
def pyStrip (s : String) : String :=
  ⟨(((s.data.dropWhile isPySpace).reverse.dropWhile isPySpace).reverse)⟩

/-- Model of `ProvisionIDExtractor` instance state after `__init__`. -/
structure ProvisionIDExtractor where
  PATTERNS : List (String × (String → Option String))
  AUTHORITY_PATTERNS : List (String × List String)
  EXCLUSION_PATTERNS : List (String → Bool)

/-- Model of `ProvisionIDExtractor._is_excluded`: does any exclusion pattern
fullmatch the candidate? -/
def _is_excluded (E : ProvisionIDExtractor) (candidate : String) : Bool :=
  E.EXCLUSION_PATTERNS.any (fun f => f candidate)

/-- Model of `ProvisionIDExtractor._looks_like_id` (lines 304–318): length 2–30, at
least one digit, and at least one letter or dot.  (The source's third check
is `re.search(r'[A-Za-z\.]|Section|Chapter|Article', ...)`, whose keyword
alternatives are subsumed by the character class since each keyword contains
a letter.  `\d` and the class are modelled over ASCII, which covers every
identifier shape in play.) -/
def _looks_like_id (text : String) : Bool :=
  if text.length < 2 || text.length > 30 then false
  else if !(text.data.any Char.isDigit) then false
  else if !(text.data.any (fun c => c.isAlpha || c = '.')) then false
  else true

/-- The pattern loop of `extract_from_canonical_locator` (lines 143–155):
first pattern whose search matches with a non-excluded group 1 wins at
confidence 0.95; an excluded match falls through to the next pattern. -/
def canonLoop (E : ProvisionIDExtractor) (loc : String) :
    List (String × (String → Option String)) → Option ExtractionResult
  | [] => none
  | (nm, f) :: rest =>
    match f loc with
    | some extracted_id =>
      if _is_excluded E extracted_id then canonLoop E loc rest
      else some ⟨extracted_id, 95, "canonical_locator", some nm⟩
    | none => canonLoop E loc rest

/-- Model of `ProvisionIDExtractor.extract_from_canonical_locator` (lines 123–170). -/
def extract_from_canonical_locator (E : ProvisionIDExtractor) (locator : String) :
    ExtractionResult :=
  if pyStrip locator = "" then ⟨"UNKNOWN", 0, "canonical_locator", none⟩
  else
    let loc := pyStrip locator
    match canonLoop E loc E.PATTERNS with
    | some r => r
    | none =>
      if _looks_like_id loc then ⟨loc, 80, "canonical_locator", some "direct"⟩
      else ⟨"UNKNOWN", 0, "canonical_locator", none⟩

/-- Model of `ProvisionIDExtractor._try_pattern` (lines 266–295): search the first
500 characters; a match whose stripped group 1 is not excluded wins at the
given confidence. -/
def _try_pattern (E : ProvisionIDExtractor) (text nm : String)
    (f : String → Option String) (confidence : Nat) : ExtractionResult :=
  match f (strTake text 500) with
  | some m =>
    let extracted_id := pyStrip m
    if !(_is_excluded E extracted_id) then ⟨extracted_id, confidence, "regex", some nm⟩
    else ⟨"UNKNOWN", 0, "regex", some nm⟩
  | none => ⟨"UNKNOWN", 0, "regex", some nm⟩

/-- Model of `self.PATTERNS[pattern_name]` guarded by `pattern_name in self.PATTERNS`. -/
def lookupPattern (E : ProvisionIDExtractor) (nm : String) : Option (String → Option String) :=
  (E.PATTERNS.find? (fun p => p.1 = nm)).map (fun p => p.2)

/-- The authority-priority loop of `extract_from_text` (lines 198–207):
named patterns in priority order at confidence 0.85; names missing from
`PATTERNS` are skipped. -/
def textPriorityLoop (E : ProvisionIDExtractor) (text : String) :
    List String → Option ExtractionResult
  | [] => none
  | nm :: rest =>
    match lookupPattern E nm with
    | some f =>
      let r := _try_pattern E text nm f 85
      if r.provision_id ≠ "UNKNOWN" then some r else textPriorityLoop E text rest
    | none => textPriorityLoop E text rest

/-- The fallback loop of `extract_from_text` (lines 210–219): every pattern
not already tried, at confidence 0.70. -/
def textFallbackLoop (E : ProvisionIDExtractor) (text : String) (priority : List String) :
    List (String × (String → Option String)) → Option ExtractionResult
  | [] => none
  | (nm, f) :: rest =>
    if nm ∈ priority then textFallbackLoop E text priority rest
    else
      let r := _try_pattern E text nm f 70
      if r.provision_id ≠ "UNKNOWN" then some r else textFallbackLoop E text priority rest

/-- Model of `ProvisionIDExtractor.extract_from_text` (lines 172–225). -/
def extract_from_text (E : ProvisionIDExtractor) (text authority : String) : ExtractionResult :=
  if text = "" then ⟨"UNKNOWN", 0, "regex", none⟩
  else
    let priority := (assocLookup E.AUTHORITY_PATTERNS authority).getD []
    match textPriorityLoop E text priority with
    | some r => r
    | none =>
      match textFallbackLoop E text priority E.PATTERNS with
      | some r => r
      | none => ⟨"UNKNOWN", 0, "regex", none⟩

/-- Model of `ProvisionIDExtractor.extract` (lines 227–264): canonical locator first
when non-empty and its result is non-UNKNOWN at confidence ≥ 0.80, then
text regex when non-UNKNOWN, else the UNKNOWN/0.0/"none" result. -/
def extract (E : ProvisionIDExtractor) (text : String)
    (canonical_locator : Option String) (authority : String) : ExtractionResult :=
  let step2 :=
    let r := extract_from_text E text authority
    if r.provision_id ≠ "UNKNOWN" then r else ⟨"UNKNOWN", 0, "none", none⟩
  match canonical_locator with
  | some loc =>
    if loc ≠ "" then
      let r := extract_from_canonical_locator E loc
      if r.provision_id ≠ "UNKNOWN" ∧ r.confidence ≥ 80 then r else step2
    else step2
  | none => step2

/-! Concrete built-in patterns needed by the properties under study. -/

/-- Python's `$` in `re.match`/`fullmatch`: end of string, or just before
one trailing newline. -/
def dollarEnd : List Char → Bool
  | [] => true
  | ['\n'] => true
  | _ => false

/-- Model of `fullmatch` of the built-in exclusion regex `\b\d+\s*(mg|g|ml|kg|mcg)\b`
(IGNORECASE): one or more digits, optional whitespace, then exactly one of
the unit words.  Both `\b`s are automatic for a full match (digit start,
letter end), and greedy matching is deterministic here because the unit
words contain neither digits nor whitespace. -/
def exclusion_mg (s : String) : Bool :=
  let cs := s.data
  let ds := cs.takeWhile Char.isDigit
  let rest := cs.drop ds.length
  let ws := rest.takeWhile isPySpace
  let unit := (rest.drop ws.length).map Char.toLower
  !ds.isEmpty &&
    (unit = ['m', 'g'] || unit = ['g'] || unit = ['m', 'l'] ||
     unit = ['k', 'g'] || unit = ['m', 'c', 'g'])

/-! ## Provision ID validation (src/build_kg/id_extractors.py lines 321–413) -/

/-- Model of `ProvisionIDValidator` instance state: per-authority format rules, each
modelled by its `match` behaviour (anchored at the start; the rules all end
in `$`). -/
structure ProvisionIDValidator where
  FORMAT_RULES : List (String × List (String → Bool))

/-- Case-insensitive literal prefix: consume `pat` (lowercase) from the
input, comparing lowercased. -/
def ciLiteral : List Char → List Char → Option (List Char)
  | [], cs => some cs
  | _ :: _, [] => none
  | p :: ps, c :: cs => if c.toLower = p then ciLiteral ps cs else none

/-- The state machine for `(?:\.\d+)*$`, one character at a time.
`inRun = true` means at least one digit of the current group has been
consumed (so the end anchor is legal and `.` may open a new group);
`inRun = false` means a `.` was just consumed and a digit is required.
Deterministic matching is faithful here: the group bodies contain no `.`
and the anchor follows, so the greedy parse is the only parse. -/
def starRun (inRun : Bool) : List Char → Bool
  | [] => inRun
  | c :: rest =>
    if inRun then
      if c.isDigit then starRun true rest
      else if c = '.' then starRun false rest
      else decide (c = '\n') && rest.isEmpty
    else
      if c.isDigit then starRun true rest else false

/-- Model of `(?:\.\d+)*$`: zero or more groups of a dot followed by digits, then the
end anchor. -/
def dotDigitsStarEnd (cs : List Char) : Bool :=
  match cs with
  | [] => true
  | ['\n'] => true
  | '.' :: more => starRun false more
  | _ => false

/-- Model of `re.match(r'^[A-Z]\.\d{2}\.\d{3}(?:\.\d+)?$', s)` (default CFIA rule 1). -/
def cfia_rule1 : List Char → Bool
  | c0 :: '.' :: d1 :: d2 :: '.' :: e1 :: e2 :: e3 :: rest =>
    c0.isUpper && d1.isDigit && d2.isDigit && e1.isDigit && e2.isDigit && e3.isDigit &&
      (dollarEnd rest ||
        (match rest with
         | '.' :: more =>
           let ds := more.takeWhile Char.isDigit
           !ds.isEmpty && dollarEnd (more.drop ds.length)
         | _ => false))
  | _ => false

/-- Model of `re.match(r'^[A-Z]\.\d{2,3}$', s)` (default CFIA rule 2). -/
def cfia_rule2 : List Char → Bool
  | c0 :: '.' :: rest =>
    let ds := rest.takeWhile Char.isDigit
    c0.isUpper && (ds.length = 2 || ds.length = 3) && dollarEnd (rest.drop ds.length)
  | _ => false

/-- Model of `re.match(r'^Section\s+\d+(?:\.\d+)*$', s, re.IGNORECASE)`
(default Health Canada rule 1). -/
def hc_rule1 (cs : List Char) : Bool :=
  match ciLiteral "section".data cs with
  | some rest =>
    let ws := rest.takeWhile isPySpace
    let r2 := rest.drop ws.length
    let ds := r2.takeWhile Char.isDigit
    !ws.isEmpty && !ds.isEmpty && dotDigitsStarEnd (r2.drop ds.length)
  | none => false

/-- Model of `re.match(r'^Schedule\s+[IVX]+$', s, re.IGNORECASE)`
(default Health Canada rule 2). -/
def hc_rule2 (cs : List Char) : Bool :=
  match ciLiteral "schedule".data cs with
  | some rest =>
    let ws := rest.takeWhile isPySpace
    let r2 := rest.drop ws.length
    let rn := r2.takeWhile (fun c => c.toLower = 'i' || c.toLower = 'v' || c.toLower = 'x')
    !ws.isEmpty && !rn.isEmpty && dollarEnd (r2.drop rn.length)
  | none => false

/-- Model of `re.match(r'^\d{1,2}\s*CFR\s*\d+(?:\.\d+)*$', s, re.IGNORECASE)`
(default CFR rule 1).  A leading digit run of length 3+ cannot match: after
`\d{1,2}`, `\s*` matches no digit and `C` is not a digit. -/
def cfr_rule1 (cs : List Char) : Bool :=
  let ds := cs.takeWhile Char.isDigit
  let r1 := cs.drop ds.length
  let ws1 := r1.takeWhile isPySpace
  (ds.length = 1 || ds.length = 2) &&
    (match ciLiteral "cfr".data (r1.drop ws1.length) with
     | some r2 =>
       let ws2 := r2.takeWhile isPySpace
       let r3 := r2.drop ws2.length
       let ds2 := r3.takeWhile Char.isDigit
       !ds2.isEmpty && dotDigitsStarEnd (r3.drop ds2.length)
     | none => false)

/-- Model of `re.match(r'^\d+\.\d+(?:\.\d+)*$', s)` (default CFR rule 2). -/
def cfr_rule2 (cs : List Char) : Bool :=
  let ds := cs.takeWhile Char.isDigit
  let rest := cs.drop ds.length
  !ds.isEmpty &&
    (match rest with
     | '.' :: more =>
       let ds2 := more.takeWhile Char.isDigit
       !ds2.isEmpty && dotDigitsStarEnd (more.drop ds2.length)
     | _ => false)

/-- Model of `ProvisionIDValidator._DEFAULT_FORMAT_RULES` (lines 325–338). -/
def _DEFAULT_FORMAT_RULES : List (String × List (String → Bool)) :=
  [("CFIA", [fun s => cfia_rule1 s.data, fun s => cfia_rule2 s.data]),
   ("Health Canada", [fun s => hc_rule1 s.data, fun s => hc_rule2 s.data]),
   ("CFR", [fun s => cfr_rule1 s.data, fun s => cfr_rule2 s.data])]

/-- The validator built by `ProvisionIDValidator.__init__` with no profile
(or a profile without format rules). -/
def defaultValidator : ProvisionIDValidator := ⟨_DEFAULT_FORMAT_RULES⟩

/-- Model of `re.match(r'^\d+$', s)`: one or more digits up to the end anchor. -/
def numericMatch (s : String) : Bool :=
  let ds := s.data.takeWhile Char.isDigit
  !ds.isEmpty && dollarEnd (s.data.drop ds.length)

/-- Model of `re.match(r'^\d+(?:\.\d+)+$', s)`: digits, then at least one
dot-digits group, up to the end anchor. -/
def dottedNumericMatch (s : String) : Bool :=
  let ds := s.data.takeWhile Char.isDigit
  let rest := s.data.drop ds.length
  !ds.isEmpty &&
    (match rest with
     | '.' :: _ => dotDigitsStarEnd rest
     | _ => false)

/-- Does some rule configured for this authority match the id?
(`authority in self.FORMAT_RULES` plus the rule loop.) -/
def formatRuleMatches (V : ProvisionIDValidator) (provision_id authority : String) : Bool :=
  match assocLookup V.FORMAT_RULES authority with
  | some rules => rules.any (fun f => f provision_id)
  | none => false

/-- The generic tail of `validate` (lines 400–413), reached when no earlier
check returned. -/
def validateGeneric (provision_id : String) : Bool × String :=
  if !(provision_id.data.any Char.isDigit) then
    (false, "Must contain at least one digit")
  else if provision_id.data.any Char.isAlpha then
    (true, "Contains letters and digits")
  else if provision_id.data.any (fun c => c = '.') then
    (true, "Contains dot separator")
  else
    (true, "Passes relaxed validation")

/-- Model of `ProvisionIDValidator.validate` (lines 356–413). -/
def validate (V : ProvisionIDValidator) (provision_id authority : String) : Bool × String :=
  if provision_id = "UNKNOWN" then (true, "UNKNOWN is valid placeholder")
  else if provision_id.length < 1 then (false, "Empty")
  else if provision_id.length > 50 then (false, "Too long")
  else if numericMatch provision_id then
    (if provision_id.length ≤ 5 then (true, "Valid numeric section")
     else (false, "Numeric but too long (likely not an ID)"))
  else if dottedNumericMatch provision_id then (true, "Valid dotted numeric format")
  else if formatRuleMatches V provision_id authority then
    (true, s!"Matches {authority} format")
  else validateGeneric provision_id

/-! ## Result reconciliation (src/build_kg/parse_batch.py lines 639–708)

The per-line loop of `BatchProcessor.process_results`.  One parsed result
line is modelled structurally: its `custom_id`, the truthiness of its
`error` field, whether `response.body.choices` is empty, and the outcome of
`json.loads` on `choices[0].message.content` (malformed, or a JSON object).
The graph loader call (`load_to_graph_generic` in ontology mode,
`load_to_graph` in domain mode — a database interaction whose boolean
outcome is what the loop consumes) is abstracted as a function from
`(fragment_id, payload)` to that boolean. -/

/-- Outcome of `json.loads(choices[0]['message']['content'])`. -/
inductive ContentOutcome where
  | malformed
  | parsed (payload : JDict)

/-- The fields of one result line that the classification reads. -/
structure ResultLine where
  custom_id : String
  has_error : Bool
  choices_empty : Bool
  content : ContentOutcome

/-- The three cumulative counters. -/
structure Stats where
  success : Nat
  failed : Nat
  skipped : Nat
deriving DecidableEq

/-- Which counter a line lands in. -/
inductive Counter where
  | success
  | failed
  | skipped
deriving DecidableEq

/-- The per-line classification of `process_results`: the `error` field
short-circuits to failed before any content access; empty `choices` is
skipped; a malformed content payload is failed; a payload whose `entities`
(ontology mode) or `requirements` (domain mode) field is falsy is skipped;
otherwise the loader's boolean decides success/failed. -/
def classifyLine (ontology_mode : Bool) (loader : String → JDict → Bool)
    (line : ResultLine) : Counter :=
  if line.has_error then .failed
  else if line.choices_empty then .skipped
  else
    match line.content with
    | .malformed => .failed
    | .parsed payload =>
      let key := if ontology_mode then "entities" else "requirements"
      if !(pyTruthy ((jlookup payload key).getD .null)) then .skipped
      else if loader line.custom_id payload then .success
      else .failed

/-- Add one classified line to the counters. -/
def bumpStats (s : Stats) : Counter → Stats
  | .success => ⟨s.success + 1, s.failed, s.skipped⟩
  | .failed => ⟨s.success, s.failed + 1, s.skipped⟩
  | .skipped => ⟨s.success, s.failed, s.skipped + 1⟩

/-- The counter loop of `BatchProcessor.process_results` over the result
lines, starting from `{'success': 0, 'failed': 0, 'skipped': 0}`; the
returned `Stats` is what the final summary reports. -/
def process_results (ontology_mode : Bool) (loader : String → JDict → Bool)
    (lines : List ResultLine) : Stats :=
  lines.foldl (fun s line => bumpStats s (classifyLine ontology_mode loader line)) ⟨0, 0, 0⟩

/-! ## Batch status polling (src/build_kg/parse_batch.py lines 281–331)

`BatchMonitor.check_status(batch_id, watch)` is modelled as a fuel-indexed
event trace.  Each iteration fetches the batch's status
(`client.batches.retrieve` — the only provider call the method makes; it
issues no mutation) and then either breaks (terminal status, or
non-terminal with `watch=False`) or sleeps 60 seconds and retries.  `st k`
is the status the `(k+1)`-th fetch observes; fuel exhaustion (`none`)
represents the still-running loop. -/

/-- One observable action of the polling loop. -/
inductive PollEvent where
  | fetch (status : String)
  | sleep (seconds : Nat)
deriving DecidableEq

/-- The four terminal statuses of the loop: `completed`, `failed`,
`expired`, `cancelled`. -/
def isTerminalStatus (s : String) : Bool :=
  s = "completed" || s = "failed" || s = "expired" || s = "cancelled"

/-- The polling loop of `check_status`, producing its event trace starting
from the `i`-th fetch, with `fuel` remaining iterations. -/
def check_status_run (watch : Bool) (st : Nat → String) :
    Nat → Nat → Option (List PollEvent)
  | 0, _ => none
  | fuel + 1, i =>
    let s := st i
    if isTerminalStatus s then some [.fetch s]
    else if watch then
      (check_status_run watch st fuel (i + 1)).map
        (fun tr => .fetch s :: .sleep 60 :: tr)
    else some [.fetch s]

/-- Model of `BatchMonitor.check_status`: the full trace from the first fetch. -/
def check_status (watch : Bool) (st : Nat → String) (fuel : Nat) :
    Option (List PollEvent) :=
  check_status_run watch st fuel 0

/-- The watch-mode trace that observes `k` non-terminal statuses and then a
terminal one: fetch/sleep-60 pairs, then the final fetch. -/
def watchTrace (st : Nat → String) (k : Nat) : List PollEvent :=
  (List.range k).flatMap (fun j => [.fetch (st j), .sleep 60]) ++ [.fetch (st k)]

/-! ## Prompt building (src/build_kg/domain.py lines 19–132 and 257–413)

The profile data model (pydantic classes) and `build_prompt` with its two
renderers.  `build_prompt(profile=None)` resolves the process-wide active
profile via `get_profile()`; the model takes the resolved profile as an
explicit argument.  Pydantic dicts keep insertion order, hence association
lists. -/

/-- Model of `ParsingConfig` (domain.py lines 19–38). -/
structure ParsingConfig where
  system_message : String
  requirement_types : List String
  deontic_modalities : List String
  constraint_logic_types : List String
  target_signal_examples : List String
  scope_examples : List String
  prompt_template : Option String

/-- The pydantic field defaults of `ParsingConfig`. -/
def defaultParsingConfig : ParsingConfig :=
  ⟨"You are a knowledge extraction expert. Always respond with valid JSON.",
   ["obligation", "prohibition", "permission", "documentation",
    "process", "testing", "reporting"],
   ["must", "must_not", "may", "should", "should_not"],
   ["threshold", "pattern", "enumeration", "boolean"],
   ["entity.attribute", "document.field", "process.step"],
   ["entity", "document", "process", "organization"],
   none⟩

/-- Model of `IDPatternConfig` (domain.py lines 41–45). -/
structure IDPatternConfig where
  regex : String
  flags : String
  confidence : Nat

/-- Model of `IDExtractionConfig` (domain.py lines 48–58). -/
structure IDExtractionConfig where
  patterns : List (String × IDPatternConfig)
  authority_priorities : List (String × List String)
  exclusions : List String
  format_rules : List (String × List String)

/-- The pydantic field defaults of `IDExtractionConfig`. -/
def defaultIDExtractionConfig : IDExtractionConfig :=
  ⟨[], [],
   ["\\b\\d\x7b4\x7d\\b",
    "\\b\\d\x7b1,3\x7d%\\b",
    "\\b\\d+\\s*(mg|g|ml|kg|mcg)\\b",
    "\\b\\d+\\s*ppm\\b"],
   []⟩

/-- Model of `SubDomain` (domain.py lines 61–64). -/
structure SubDomain where
  name : String
  description : String

/-- Model of `PriorityTier` (domain.py lines 67–72). -/
structure PriorityTier where
  description : String
  depth : Int
  max_pages : Int
  delay : Int

/-- Model of `DiscoveryConfig` (domain.py lines 75–81). -/
structure DiscoveryConfig where
  search_templates : List String
  sub_domains : List SubDomain
  priority_tiers : List (String × PriorityTier)
  gap_search_templates : List String
  supplementary_sources : List String

/-- The pydantic field defaults of `DiscoveryConfig`. -/
def defaultDiscoveryConfig : DiscoveryConfig := ⟨[], [], [], [], []⟩

/-- Model of `NodeDef` (domain.py lines 84–88). -/
structure NodeDef where
  label : String
  description : String
  properties : List (String × String)

/-- Model of `EdgeDef` (domain.py lines 91–97). -/
structure EdgeDef where
  label : String
  source : String
  target : String
  description : String
  properties : List (String × String)

/-- Model of `OntologyConfig` (domain.py lines 100–106). -/
structure OntologyConfig where
  description : String
  nodes : List NodeDef
  edges : List EdgeDef
  root_node : String
  json_schema : Option String

/-- The pydantic field defaults of `OntologyConfig`: no nodes, no edges, no
`json_schema`. -/
def defaultOntologyConfig : OntologyConfig := ⟨"", [], [], "", none⟩

/-- Model of `DomainProfile` (domain.py lines 109–119).  The `extends` field is
spelled `extendsBase` (`extends` is a Lean keyword). -/
structure DomainProfile where
  name : String
  description : String
  version : String
  extendsBase : Option String
  parsing : ParsingConfig
  id_patterns : IDExtractionConfig
  discovery : DiscoveryConfig
  ontology : OntologyConfig

/-- A profile built from the pydantic defaults alone
(`DomainProfile(name=...)`): in particular its ontology has no node
definitions and no `json_schema`. -/
def bareProfile (name : String) : DomainProfile :=
  ⟨name, "", "1.0", none, defaultParsingConfig, defaultIDExtractionConfig,
   defaultDiscoveryConfig, defaultOntologyConfig⟩

/-- Python truthiness of `Optional[str]` (`ontology.json_schema`). -/
def optStrTruthy : Option String → Bool
  | none => false
  | some s => decide (s ≠ "")

/-- Model of `", ".join(xs)`. -/
def commaJoin (xs : List String) : String :=
  String.intercalate ", " xs

/-- Model of `", ".join(f'"{s}"' for s in xs)`. -/
def quoteJoin (xs : List String) : String :=
  String.intercalate ", " (xs.map (fun s => "\"" ++ s ++ "\""))

/-- Model of `str.format` for templates whose placeholders are the eight simple
named fields `_build_regulatory_prompt` supplies, modelled as substitution
of each `{name}` by its value.  (Escaped braces and format specs do not
occur in the profile templates in play.) -/
def pyFormat (template : String) (subs : List (String × String)) : String :=
  subs.foldl (fun t kv => t.replace ("\x7b" ++ kv.1 ++ "\x7d") kv.2) template

/-- Model of `domain._build_regulatory_prompt` (lines 335–413): the legacy
Provision/Requirement/Constraint prompt. -/
def _build_regulatory_prompt (excerpt : String) (parsing : ParsingConfig)
    (authority jurisdiction : String) : String × String :=
  let req_types := commaJoin parsing.requirement_types
  let modalities := commaJoin parsing.deontic_modalities
  let logic_types := commaJoin parsing.constraint_logic_types
  let signal_examples := quoteJoin parsing.target_signal_examples
  let scope_examples := quoteJoin parsing.scope_examples
  let user_prompt :=
    match parsing.prompt_template with
    | some t =>
      pyFormat t
        [("authority", authority), ("jurisdiction", jurisdiction),
         ("requirement_types", req_types), ("deontic_modalities", modalities),
         ("constraint_logic_types", logic_types),
         ("target_signal_examples", signal_examples),
         ("scope_examples", scope_examples), ("excerpt", excerpt)]
    | none =>
      s!"You are a regulatory compliance expert analyzing regulatory text from {authority} in jurisdiction {jurisdiction}.\n\nExtract the following structured information from the regulatory text below:\n\n1. **Provision ID**: If mentioned, extract it. Otherwise, use \"UNKNOWN\".\n\n2. **Requirements**: Extract all regulatory requirements as a list. Each requirement should have:\n   - `requirement_type`: One of [{req_types}]\n   - `deontic_modality`: One of [{modalities}]\n   - `description`: Clear description of what is required\n   - `applies_to_scope`: What the requirement applies to (e.g., {scope_examples})\n\n3. **Constraints**: For each requirement, identify testable constraints:\n   - `logic_type`: One of [{logic_types}]\n   - `target_signal`: What is being measured/checked (e.g., {signal_examples})\n   - `operator`: For thresholds (e.g., \"<=\", \">=\", \"==\", \"!=\")\n   - `threshold`: Numeric value (if applicable)\n   - `unit`: Unit of measurement (if applicable)\n   - `pattern`: Regex pattern (for text matching)\n   - `allowed_values`: List of allowed values (for enumerations)\n\nRegulatory Text:\n\"\"\"\n{excerpt}\n\"\"\"\n\nRespond with valid JSON in this exact format:\n\x7b\n  \"provision_id\": \"...\",\n  \"provision_text\": \"...\",\n  \"requirements\": [\n    \x7b\n      \"requirement_type\": \"...\",\n      \"deontic_modality\": \"...\",\n      \"description\": \"...\",\n      \"applies_to_scope\": \"...\",\n      \"constraints\": [\n        \x7b\n          \"logic_type\": \"...\",\n          \"target_signal\": \"...\",\n          \"operator\": \"...\",\n          \"threshold\": null,\n          \"unit\": null,\n          \"pattern\": null,\n          \"allowed_values\": null\n        \x7d\n      ]\n    \x7d\n  ]\n\x7d\n\nIf no clear requirements are found, return an empty requirements array."
  (parsing.system_message, user_prompt)

/-- One node bullet of the ontology prompt. -/
def nodeDesc (n : NodeDef) : String :=
  "- **" ++ n.label ++ "**: " ++ n.description ++
    (if n.properties.isEmpty then ""
     else " (Properties: " ++
       String.intercalate ", "
         (n.properties.map (fun kv => "`" ++ kv.1 ++ "` [" ++ kv.2 ++ "]")) ++ ")")

/-- One edge bullet of the ontology prompt. -/
def edgeDesc (e : EdgeDef) : String :=
  "- **" ++ e.label ++ "**: " ++ e.source ++ " → " ++ e.target ++ " (" ++ e.description ++ ")"

/-- Model of `domain._build_ontology_prompt` (lines 287–332). -/
def _build_ontology_prompt (excerpt : String) (ontology : OntologyConfig)
    (parsing : ParsingConfig) (authority jurisdiction : String) : String × String :=
  let node_descriptions := String.intercalate "\n" (ontology.nodes.map nodeDesc)
  let edge_descriptions := String.intercalate "\n" (ontology.edges.map edgeDesc)
  let source_context :=
    if authority ≠ "" ∧ jurisdiction ≠ "" then
      "\n\nSource: " ++ authority ++ " (" ++ jurisdiction ++ ")"
    else if authority ≠ "" then "\n\nSource: " ++ authority
    else ""
  let js :=
    match ontology.json_schema with
    | some s => s
    | none => "None"
  let user_prompt :=
    "Extract structured knowledge from the text below according to this ontology.\n\n**Node types:**\n"
      ++ node_descriptions ++ "\n\n**Relationships:**\n" ++ edge_descriptions ++ "\n"
      ++ source_context ++ "\n\nText:\n\"\"\"\n" ++ excerpt
      ++ "\n\"\"\"\n\nRespond with valid JSON in this exact format:\n" ++ js
      ++ "\n\nIf no meaningful entities are found, return minimal valid JSON with empty arrays."
  (parsing.system_message, user_prompt)

/-- Model of `domain.build_prompt` (lines 257–284), with the active profile resolved
to an explicit argument: ontology-driven prompt when the profile's ontology
has nodes and a truthy `json_schema`, otherwise the legacy regulatory
prompt. -/
def build_prompt (excerpt authority jurisdiction : String) (profile : DomainProfile) :
    String × String :=
  if !profile.ontology.nodes.isEmpty && optStrTruthy profile.ontology.json_schema then
    _build_ontology_prompt excerpt profile.ontology profile.parsing authority jurisdiction
  else
    _build_regulatory_prompt excerpt profile.parsing authority jurisdiction

/-! ## Theorems -/

/-! ### Cypher escaping (C4) -/

theorem replaceChar_append (c : Char) (r a b : List Char) :
    replaceChar c r (a ++ b) = replaceChar c r a ++ replaceChar c r b := by
  induction a with
  | nil => rfl
  | cons x rest ih => simp [replaceChar, ih]

theorem escapeCypherChars_cons (x : Char) (l : List Char) :
    escapeCypherChars (x :: l) = escChar x ++ escapeCypherChars l := by
  by_cases h1 : x = '\\'
  · subst h1
    simp [escapeCypherChars, replaceChar, replaceChar_append, escChar]
  · by_cases h2 : x = '\''
    · subst h2
      simp [escapeCypherChars, replaceChar, replaceChar_append, escChar]
    · by_cases h3 : x = '"'
      · subst h3
        simp [escapeCypherChars, replaceChar, replaceChar_append, escChar]
      · by_cases h4 : x = '\n'
        · subst h4
          simp [escapeCypherChars, replaceChar, replaceChar_append, escChar]
        · simp [escapeCypherChars, replaceChar, replaceChar_append, escChar,
            h1, h2, h3, h4]

theorem cypherUnescape_cons_ne (c : Char) (l : List Char) (h : ¬c = '\\') :
    cypherUnescape (c :: l) = (cypherUnescape l).map (c :: ·) := by
  cases l <;> simp [cypherUnescape, h]

theorem cypherUnescape_escapeCypherChars (l : List Char) (h : '\n' ∉ l) :
    cypherUnescape (escapeCypherChars l) = some l := by
  induction l with
  | nil => rfl
  | cons x rest ih =>
    have hrest : '\n' ∉ rest := fun hm => h (List.mem_cons_of_mem _ hm)
    have hx : x ≠ '\n' := fun e => h (e ▸ List.mem_cons_self _ _)
    rw [escapeCypherChars_cons]
    by_cases h1 : x = '\\'
    · subst h1
      simp [escChar, cypherUnescape, ih hrest]
    · by_cases h2 : x = '\''
      · subst h2
        simp [escChar, cypherUnescape, ih hrest]
      · by_cases h3 : x = '"'
        · subst h3
          simp [escChar, cypherUnescape, ih hrest]
        · have he : escChar x = [x] := by simp [escChar, h1, h2, h3, hx]
          rw [he, List.singleton_append, cypherUnescape_cons_ne x _ h1, ih hrest]
          rfl

/-- Claim C4: `_escape_cypher` — backslashes doubled first, then single and
double quotes backslash-escaped, then newlines replaced by spaces, in that
order — is injective on newline-free values: a Cypher-side reader of the
escaped string recovers exactly the original content.  (Newlines are the
one lossy case, which is why the round trip is stated for newline-free
input; the claim's instance — a backslash followed by a single quote —
contains none.) -/
theorem escape_cypher_roundtrip (s : String) (h : '\n' ∉ s.data) :
    cypherUnescape (_escape_cypher s).data = some s.data :=
  cypherUnescape_escapeCypherChars s.data h

/-- Witness for C4 at the spec's instance: a value containing a backslash
followed by a single quote round-trips through the escape. -/
theorem escape_cypher_roundtrip_witness :
    '\n' ∉ "a\\'b".data ∧ cypherUnescape (_escape_cypher "a\\'b").data = some "a\\'b".data :=
  ⟨by decide, escape_cypher_roundtrip "a\\'b" (by decide)⟩

/-! ### Generic graph loader (C2, C3) -/

theorem pyIndex_exists {α : Type} (l : List α) (i : Int)
    (h1 : -(l.length : Int) ≤ i) (h2 : i < (l.length : Int)) :
    ∃ x, pyIndex l i = some x := by
  unfold pyIndex
  by_cases h0 : 0 ≤ i
  · rw [if_pos h0]
    have hne : l.get? i.toNat ≠ none := by
      simp [List.get?_eq_getElem?]
      omega
    exact Option.ne_none_iff_exists'.mp hne
  · rw [if_neg h0]
    have hge : 0 ≤ (l.length : Int) + i := by omega
    rw [if_pos hge]
    have hne : l.get? ((l.length : Int) + i).toNat ≠ none := by
      simp [List.get?_eq_getElem?]
      omega
    exact Option.ne_none_iff_exists'.mp hne

theorem pyIndex_none {α : Type} (l : List α) (i : Int) (h : i < -(l.length : Int)) :
    pyIndex l i = none := by
  unfold pyIndex
  rw [if_neg (by omega), if_neg (by omega)]

theorem processRels_good_run (ids : List (String × String)) (pre : List JDict)
    (h : ∀ rel ∈ pre, relAborts ids.length rel = false) :
    ∀ (rest : List JDict) (acc : List GraphOp),
      processRels ids (pre ++ rest) acc
        = processRels ids rest (acc ++ pre.filterMap (relEdge ids)) := by
  induction pre with
  | nil => intro rest acc; simp
  | cons rel pre' ih =>
    intro rest acc
    have hab := h rel (List.mem_cons_self _ _)
    have ih' := ih (fun r hr => h r (List.mem_cons_of_mem _ hr)) rest
    rcases hf : relIndex rel "_from_index" with e | fi
    · simp [relAborts, hf] at hab
    · by_cases hflt : fi < (ids.length : Int)
      · rcases ht : relIndex rel "_to_index" with e | ti
        · simp [relAborts, hf, hflt, ht] at hab
        · by_cases htlt : ti < (ids.length : Int)
          · simp only [relAborts, hf, ht, if_pos hflt, if_pos htlt,
              Bool.or_eq_false_iff, decide_eq_false_iff_not, not_lt] at hab
            obtain ⟨ft, hft⟩ := pyIndex_exists ids fi hab.1 hflt
            obtain ⟨tt, htt⟩ := pyIndex_exists ids ti hab.2 htlt
            have hedge : relEdge ids rel
                = some (.createEdge ft.2 ft.1 (relLabel rel) tt.2 tt.1) := by
              simp [relEdge, hf, ht, hflt, htlt, hft, htt]
            simp [processRels, hf, ht, hflt, htlt, hft, htt, ih', hedge,
              List.filterMap_cons, List.append_assoc]
          · have hedge : relEdge ids rel = none := by
              simp [relEdge, hf, ht, htlt]
            simp [processRels, hf, ht, hflt, htlt, ih', hedge, List.filterMap_cons]
      · have hedge : relEdge ids rel = none := by
          rcases ht : relIndex rel "_to_index" with e | ti
          · simp [relEdge, hf, ht]
          · simp [relEdge, hf, ht, hflt]
        simp [processRels, hf, hflt, ih', hedge, List.filterMap_cons]

theorem processRels_abort (ids : List (String × String)) (bad : JDict)
    (post : List JDict) (hbad : relAborts ids.length bad = true) :
    ∀ acc, processRels ids (bad :: post) acc = (false, acc) := by
  intro acc
  rcases hf : relIndex bad "_from_index" with e | fi
  · simp [processRels, hf]
  · by_cases hflt : fi < (ids.length : Int)
    · rcases ht : relIndex bad "_to_index" with e | ti
      · simp [processRels, hf, hflt, ht]
      · by_cases htlt : ti < (ids.length : Int)
        · simp only [relAborts, hf, ht, if_pos hflt, if_pos htlt,
            Bool.or_eq_true, decide_eq_true_eq] at hbad
          rcases hbad with hlt | hlt
          · have hnone : pyIndex ids fi = none := pyIndex_none ids fi (by omega)
            simp [processRels, hf, hflt, ht, htlt, hnone]
          · rcases hpf : pyIndex ids fi with _ | ft
            · simp [processRels, hf, hflt, ht, htlt, hpf]
            · have hnone : pyIndex ids ti = none := pyIndex_none ids ti (by omega)
              simp [processRels, hf, hflt, ht, htlt, hpf, hnone]
        · simp [relAborts, hf, hflt, ht, htlt] at hbad
    · simp [relAborts, hf, hflt] at hbad

theorem relEdge_isSome_iff (ids : List (String × String)) (rel : JDict) (fi ti : Int)
    (hf : relIndex rel "_from_index" = .ok fi)
    (ht : relIndex rel "_to_index" = .ok ti)
    (hfl : -(ids.length : Int) ≤ fi) (htl : -(ids.length : Int) ≤ ti) :
    (relEdge ids rel).isSome = true
      ↔ (fi < (ids.length : Int) ∧ ti < (ids.length : Int)) := by
  by_cases hcond : fi < (ids.length : Int) ∧ ti < (ids.length : Int)
  · obtain ⟨ft, hft⟩ := pyIndex_exists ids fi hfl hcond.1
    obtain ⟨tt, htt⟩ := pyIndex_exists ids ti htl hcond.2
    simp [relEdge, hf, ht, hcond, hft, htt]
  · simp [relEdge, hf, ht, hcond]

/-- Counterexample to C2 as stated: with one entity, the relationship
`{"_from_index": -1, "_to_index": 0}` has an index outside `0 ≤ i < 1`,
yet `load_to_graph_generic` creates an edge for it (Python's `-1 < len`
comparison passes and `entity_ids[-1]` wraps to the last entity) instead of
silently skipping it. -/
theorem load_generic_negative_index_creates_edge :
    load_to_graph_generic "" "frag-1234" "doc-1"
      [[("name", .str "A")]]
      [[("_from_index", .num (-1)), ("_to_index", .num 0)]]
    = (true,
       [.createVertex "Entity"
          [("id", .strv "Entity_frag-123_0"), ("fragment_id", .strv "frag-1234"),
           ("doc_id", .strv "doc-1"), ("name", .strv "A")],
        .createEdge "Entity" "Entity_frag-123_0" "RELATES_TO" "Entity" "Entity_frag-123_0"]) := by
  rfl

/-- Claim C2 (amended): in ontology-mode loading, relationships are
processed in order, and with `n` the number of entities:

* if no relationship aborts (`relAborts`), the load returns success and
  issues, per relationship and in order, exactly the edges of `relEdge`;
* if the relationship list splits into a non-aborting prefix, a first
  aborting relationship, and a remainder, the load returns failure having
  issued exactly the prefix's edges — the aborting relationship and
  everything after it (valid or not) produce no edge;
* for a relationship whose indices are integers `≥ -n`, `relEdge` produces
  an edge if and only if both indices are below `n` — i.e. an edge is
  created exactly when both indices lie in `[-n, n)`, negative indices
  resolving Python-style from the end of the entities array, while an index
  `≥ n` means the relationship is silently skipped;
* the edge label defaults to `"RELATES_TO"` when `_label` is absent. -/
theorem load_generic_edge_spec (root fid did : String) (entities rels : List JDict)
    (hne : entities.isEmpty = false) :
    ((∀ rel ∈ rels, relAborts entities.length rel = false) →
      load_to_graph_generic root fid did entities rels
        = (true, entities.enum.map (entityVertex root fid did)
            ++ rels.filterMap (relEdge (entityIds root fid entities))))
    ∧ (∀ pre bad post, rels = pre ++ bad :: post →
        (∀ rel ∈ pre, relAborts entities.length rel = false) →
        relAborts entities.length bad = true →
        load_to_graph_generic root fid did entities rels
          = (false, entities.enum.map (entityVertex root fid did)
              ++ pre.filterMap (relEdge (entityIds root fid entities))))
    ∧ (∀ (rel : JDict) (fi ti : Int), relIndex rel "_from_index" = .ok fi →
        relIndex rel "_to_index" = .ok ti →
        -(entities.length : Int) ≤ fi → -(entities.length : Int) ≤ ti →
        ((relEdge (entityIds root fid entities) rel).isSome = true
          ↔ (fi < (entities.length : Int) ∧ ti < (entities.length : Int))))
    ∧ (∀ rel : JDict, jlookup rel "_label" = none → relLabel rel = "RELATES_TO") := by
  have hlen : (entityIds root fid entities).length = entities.length := by
    simp [entityIds]
  refine ⟨?_, ?_, ?_, ?_⟩
  · intro hgood
    rw [load_to_graph_generic, if_neg (by simp [hne])]
    have h := processRels_good_run (entityIds root fid entities) rels
      (by rw [hlen]; exact hgood) []
      (entities.enum.map (entityVertex root fid did))
    rw [List.append_nil] at h
    rw [h, processRels]
  · intro pre bad post hsplit hpre hbad
    subst hsplit
    rw [load_to_graph_generic, if_neg (by simp [hne])]
    rw [processRels_good_run (entityIds root fid entities) pre
      (by rw [hlen]; exact hpre) (bad :: post)]
    rw [processRels_abort (entityIds root fid entities) bad post (by rw [hlen]; exact hbad)]
  · intro rel fi ti hf ht hfl htl
    rw [show (entities.length : Int) = ((entityIds root fid entities).length : Int) by
      rw [hlen]] at hfl htl ⊢
    exact relEdge_isSome_iff (entityIds root fid entities) rel fi ti hf ht hfl htl
  · intro rel hl
    simp [relLabel, hl]

/-- Witness for C2 (amended), with one entity (`n = 1`): a lone wrapped
relationship (`_from_index = -1`) does not abort and the load succeeds with
its edge; prefixing it to an aborting relationship (`_from_index = -2`)
followed by a valid one returns failure with only the prefix's edge — the
valid relationship after the abort gets none; `relEdge` is inhabited for
in-range indices `(0, 0)`; and a relationship without `_label` gets
`"RELATES_TO"`. -/
theorem load_generic_edge_spec_witness :
    load_to_graph_generic "" "frag-1234" "doc-1"
      [[("name", JVal.str "B")]]
      [[("_from_index", JVal.num (-1)), ("_to_index", JVal.num 0)]]
    = (true,
       [[("name", JVal.str "B")]].enum.map (entityVertex "" "frag-1234" "doc-1")
         ++ [[("_from_index", JVal.num (-1)), ("_to_index", JVal.num 0)]].filterMap
              (relEdge (entityIds "" "frag-1234" [[("name", JVal.str "B")]])))
    ∧ load_to_graph_generic "" "frag-1234" "doc-1"
        [[("name", JVal.str "B")]]
        [[("_from_index", JVal.num (-1)), ("_to_index", JVal.num 0)],
         [("_from_index", JVal.num (-2)), ("_to_index", JVal.num 0)],
         [("_from_index", JVal.num 0), ("_to_index", JVal.num 0)]]
      = (false,
         [[("name", JVal.str "B")]].enum.map (entityVertex "" "frag-1234" "doc-1")
           ++ [[("_from_index", JVal.num (-1)), ("_to_index", JVal.num 0)]].filterMap
                (relEdge (entityIds "" "frag-1234" [[("name", JVal.str "B")]])))
    ∧ ((relEdge (entityIds "" "frag-1234" [[("name", JVal.str "B")]])
          [("_from_index", JVal.num 0), ("_to_index", JVal.num 0)]).isSome = true
        ↔ ((0 : Int) < (1 : Int) ∧ (0 : Int) < (1 : Int)))
    ∧ relLabel [] = "RELATES_TO" := by
  have h1 := load_generic_edge_spec "" "frag-1234" "doc-1"
    [[("name", JVal.str "B")]]
    [[("_from_index", JVal.num (-1)), ("_to_index", JVal.num 0)]]
    (by rfl)
  have h2 := load_generic_edge_spec "" "frag-1234" "doc-1"
    [[("name", JVal.str "B")]]
    [[("_from_index", JVal.num (-1)), ("_to_index", JVal.num 0)],
     [("_from_index", JVal.num (-2)), ("_to_index", JVal.num 0)],
     [("_from_index", JVal.num 0), ("_to_index", JVal.num 0)]]
    (by rfl)
  refine ⟨?_, ?_, ?_, h1.2.2.2 [] rfl⟩
  · exact h1.1 (by
      intro rel hr
      rw [List.mem_singleton] at hr
      subst hr
      decide)
  · exact h2.2.1
      [[("_from_index", JVal.num (-1)), ("_to_index", JVal.num 0)]]
      [("_from_index", JVal.num (-2)), ("_to_index", JVal.num 0)]
      [[("_from_index", JVal.num 0), ("_to_index", JVal.num 0)]]
      rfl
      (by
        intro rel hr
        rw [List.mem_singleton] at hr
        subst hr
        decide)
      (by decide)
  · exact h1.2.2.1 [("_from_index", JVal.num 0), ("_to_index", JVal.num 0)] 0 0
      rfl rfl (by decide) (by decide)

theorem processRels_filter_vertex (ids : List (String × String)) (rels : List JDict) :
    ∀ acc, ((processRels ids rels acc).2.filter (fun op => op.isVertex))
      = acc.filter (fun op => op.isVertex) := by
  induction rels with
  | nil => intro acc; simp [processRels]
  | cons rel rest ih =>
    intro acc
    rcases hf : relIndex rel "_from_index" with e | fi
    · simp [processRels, hf]
    · by_cases hflt : fi < (ids.length : Int)
      · rcases ht : relIndex rel "_to_index" with e | ti
        · simp [processRels, hf, hflt, ht]
        · by_cases htlt : ti < (ids.length : Int)
          · rcases hpf : pyIndex ids fi with _ | ft
            · simp [processRels, hf, hflt, ht, htlt, hpf]
            · rcases hpt : pyIndex ids ti with _ | tt
              · simp [processRels, hf, hflt, ht, htlt, hpf, hpt]
              · rw [show processRels ids (rel :: rest) acc
                    = processRels ids rest
                        (acc ++ [.createEdge ft.2 ft.1 (relLabel rel) tt.2 tt.1]) by
                  simp [processRels, hf, hflt, ht, htlt, hpf, hpt]]
                rw [ih]
                simp [List.filter_append, GraphOp.isVertex]
          · simp [processRels, hf, hflt, ht, htlt, ih]
      · simp [processRels, hf, hflt, ih]

/-- Claim C3: synthetic entity ids are deterministic.  The id assigned to
the entity at position `i` is exactly
`{label}_{first 8 characters of fragment_id}_{i}`, and the vertex `CREATE`s
a load issues do not depend on the `relationships` part of the payload at
all — so re-loading the same `(fragment_id, parsed_result)` issues vertex
`CREATE`s (not upserts) with identical ids both times, duplicating the
vertices. -/
theorem synthetic_ids_deterministic (root fid did : String)
    (entities rels rels' : List JDict) :
    (entityIds root fid entities).map Prod.fst
      = entities.enum.map
          (fun p => entityLabel root p.2 ++ "_" ++ strTake fid 8 ++ "_" ++ toString p.1)
    ∧ (load_to_graph_generic root fid did entities rels).2.filter (fun op => op.isVertex)
      = (load_to_graph_generic root fid did entities rels').2.filter (fun op => op.isVertex) := by
  constructor
  · simp [entityIds, entityId]
  · by_cases he : entities.isEmpty
    · simp [load_to_graph_generic, he]
    · rw [load_to_graph_generic, if_neg he, load_to_graph_generic, if_neg he]
      rw [processRels_filter_vertex, processRels_filter_vertex]

/-! ### Profile deep merge (C6) -/

theorem deep_merge_override_cons (base : JDict) (k : String) (v : JVal) (tl : JDict) :
    _deep_merge_override base ((k, v) :: tl)
      = (k, mergeVal base k v) :: _deep_merge_override base tl := by
  rw [_deep_merge_override.eq_def]
  rfl

theorem deep_merge_override_keys (base : JDict) (ov : JDict) :
    (_deep_merge_override base ov).map Prod.fst = ov.map Prod.fst := by
  induction ov with
  | nil => simp [_deep_merge_override]
  | cons hd tl ih =>
    obtain ⟨k, v⟩ := hd
    rw [deep_merge_override_cons]
    simp [ih]

theorem deep_merge_override_lookup (base : JDict) (ov : JDict) (k : String) :
    jlookup (_deep_merge_override base ov) k = (jlookup ov k).map (mergeVal base k) := by
  induction ov with
  | nil => simp [_deep_merge_override, jlookup]
  | cons hd tl ih =>
    obtain ⟨k', v'⟩ := hd
    rw [deep_merge_override_cons]
    by_cases hk : k' = k
    · subst hk
      simp [jlookup]
    · simp [jlookup, hk, ih]

theorem jlookup_append (l1 l2 : JDict) (k : String) :
    jlookup (l1 ++ l2) k
      = match jlookup l1 k with
        | some v => some v
        | none => jlookup l2 k := by
  induction l1 with
  | nil => simp [jlookup]
  | cons hd tl ih =>
    obtain ⟨k', v'⟩ := hd
    by_cases hk : k' = k
    · subst hk
      simp [jlookup]
    · simp [jlookup, hk, ih]

theorem jlookup_filter_not_contains (base ov : JDict) (k : String)
    (h : containsKey ov k = false) :
    jlookup (base.filter (fun kv => !containsKey ov kv.1)) k = jlookup base k := by
  induction base with
  | nil => simp
  | cons hd tl ih =>
    obtain ⟨k', v'⟩ := hd
    by_cases hk : k' = k
    · subst hk
      simp [List.filter_cons, h, jlookup]
    · by_cases hc : containsKey ov k'
      · simp [List.filter_cons, hc, jlookup, hk, ih]
      · simp only [List.filter_cons]
        rw [show (!containsKey ov (k', v').1) = true by simp [hc]]
        simp [jlookup, hk, ih]

theorem deep_merge_empty_override (base : JDict) : _deep_merge base [] = base := by
  rw [_deep_merge]
  simp [_deep_merge_override, containsKey, jlookup]

/-- Claim C6: `_deep_merge` is idempotent under an empty override; its
result lists the child's keys first in child order, followed by the
base-only keys; on a key where both sides hold dicts the merge recurses; on
every other key present in the child, the child's value fully replaces the
base's; keys absent from the child keep the base's value. -/
theorem deep_merge_spec (base child : JDict) :
    _deep_merge (_deep_merge base child) [] = _deep_merge base child
    ∧ (_deep_merge base child).map Prod.fst
        = child.map Prod.fst
          ++ (base.filter (fun kv => !containsKey child kv.1)).map Prod.fst
    ∧ (∀ k b o, jlookup base k = some (.obj b) → jlookup child k = some (.obj o) →
        jlookup (_deep_merge base child) k = some (.obj (_deep_merge b o)))
    ∧ (∀ k v, jlookup child k = some v →
        (∀ b o, ¬(jlookup base k = some (.obj b) ∧ v = .obj o)) →
        jlookup (_deep_merge base child) k = some v)
    ∧ (∀ k, jlookup child k = none →
        jlookup (_deep_merge base child) k = jlookup base k) := by
  refine ⟨deep_merge_empty_override _, ?_, ?_, ?_, ?_⟩
  · rw [_deep_merge]
    simp [deep_merge_override_keys]
  · intro k b o hb hc
    rw [_deep_merge, jlookup_append, deep_merge_override_lookup, hc]
    simp [mergeVal, hb]
  · intro k v hc hexcl
    rw [_deep_merge, jlookup_append, deep_merge_override_lookup, hc]
    have hmv : mergeVal base k v = v := by
      unfold mergeVal
      rcases hbase : jlookup base k with _ | jv
      · rfl
      · cases jv <;> first
          | rfl
          | (cases v <;> first
              | rfl
              | exact absurd ⟨hbase, rfl⟩ (hexcl _ _))
    simp [hmv]
  · intro k hc
    rw [_deep_merge, jlookup_append, deep_merge_override_lookup, hc]
    simp
    exact jlookup_filter_not_contains _ _ _ (by simp [containsKey, hc])

/-- Witness for C6 at concrete nested profiles: idempotence under the empty
override, and recursion on the key `"b"` where both sides hold dicts. -/
theorem deep_merge_spec_witness :
    _deep_merge
        (_deep_merge [("a", JVal.num 1), ("b", JVal.obj [("x", JVal.num 1), ("y", JVal.num 2)])]
          [("b", JVal.obj [("y", JVal.num 9)]), ("c", JVal.num 4)]) []
      = _deep_merge [("a", JVal.num 1), ("b", JVal.obj [("x", JVal.num 1), ("y", JVal.num 2)])]
          [("b", JVal.obj [("y", JVal.num 9)]), ("c", JVal.num 4)]
    ∧ jlookup
        (_deep_merge [("a", JVal.num 1), ("b", JVal.obj [("x", JVal.num 1), ("y", JVal.num 2)])]
          [("b", JVal.obj [("y", JVal.num 9)]), ("c", JVal.num 4)]) "b"
      = some (.obj (_deep_merge [("x", JVal.num 1), ("y", JVal.num 2)] [("y", JVal.num 9)])) := by
  have h := deep_merge_spec
    [("a", JVal.num 1), ("b", JVal.obj [("x", JVal.num 1), ("y", JVal.num 2)])]
    [("b", JVal.obj [("y", JVal.num 9)]), ("c", JVal.num 4)]
  exact ⟨h.1, h.2.2.1 "b" _ _ rfl rfl⟩

/-! ### ID extraction (C5, C9) -/

/-- Claim C5: `extract`'s priority.  When the canonical locator is present
and non-empty and its extraction yields a non-UNKNOWN id at confidence
≥ 0.80, that result is returned; in every other situation the text-regex
result is returned when its id is non-UNKNOWN, and otherwise the
`UNKNOWN`/0.0/`"none"` result. -/
theorem extract_priority_spec (E : ProvisionIDExtractor) (text : String)
    (cl : Option String) (auth : String) :
    (∀ loc, cl = some loc → loc ≠ "" →
      (extract_from_canonical_locator E loc).provision_id ≠ "UNKNOWN" →
      (extract_from_canonical_locator E loc).confidence ≥ 80 →
      extract E text cl auth = extract_from_canonical_locator E loc)
    ∧ ((cl = none ∨ cl = some "" ∨
        (∃ loc, cl = some loc ∧
          ¬((extract_from_canonical_locator E loc).provision_id ≠ "UNKNOWN" ∧
            (extract_from_canonical_locator E loc).confidence ≥ 80))) →
      ((extract_from_text E text auth).provision_id ≠ "UNKNOWN" →
        extract E text cl auth = extract_from_text E text auth)
      ∧ ((extract_from_text E text auth).provision_id = "UNKNOWN" →
        extract E text cl auth = ⟨"UNKNOWN", 0, "none", none⟩)) := by
  constructor
  · intro loc hcl hne hpid hconf
    subst hcl
    rw [extract]
    simp only [if_pos hne]
    rw [if_pos ⟨hpid, hconf⟩]
  · intro hcase
    have hstep2 : ∀ h :
        extract E text cl auth
          = (if (extract_from_text E text auth).provision_id ≠ "UNKNOWN" then
              extract_from_text E text auth
            else ⟨"UNKNOWN", 0, "none", none⟩),
        ((extract_from_text E text auth).provision_id ≠ "UNKNOWN" →
          extract E text cl auth = extract_from_text E text auth)
        ∧ ((extract_from_text E text auth).provision_id = "UNKNOWN" →
          extract E text cl auth = ⟨"UNKNOWN", 0, "none", none⟩) := by
      intro h
      constructor
      · intro ht
        rw [h, if_pos ht]
      · intro ht
        rw [h, if_neg (by simp [ht])]
    rcases hcase with h | h | ⟨loc, hcl, hnot⟩
    · subst h
      exact hstep2 (by rw [extract])
    · subst h
      exact hstep2 (by rw [extract]; simp)
    · subst hcl
      by_cases hne : loc = ""
      · subst hne
        exact hstep2 (by rw [extract]; simp)
      · exact hstep2 (by rw [extract]; simp only [if_pos hne]; rw [if_neg hnot])

/-- Witness for C5: a configured extractor whose single pattern matches the
locator — the canonical-locator result (confidence 0.95) is returned. -/
theorem extract_priority_spec_witness :
    extract ⟨[("p", fun s => if s = "B.01" then some "B.01" else none)], [], []⟩
      "text" (some "B.01") "CFIA"
    = extract_from_canonical_locator
        ⟨[("p", fun s => if s = "B.01" then some "B.01" else none)], [], []⟩ "B.01" :=
  (extract_priority_spec
      ⟨[("p", fun s => if s = "B.01" then some "B.01" else none)], [], []⟩
      "text" (some "B.01") "CFIA").1
    "B.01" rfl (by decide) (by decide) (by decide)

theorem canonLoop_all_none (E : ProvisionIDExtractor) (loc : String)
    (ps : List (String × (String → Option String)))
    (h : ∀ p ∈ ps, p.2 loc = none) :
    canonLoop E loc ps = none := by
  induction ps with
  | nil => rfl
  | cons hd tl ih =>
    obtain ⟨nm, f⟩ := hd
    have hf : f loc = none := h (nm, f) (List.mem_cons_self _ _)
    rw [canonLoop, hf]
    exact ih (fun p hp => h p (List.mem_cons_of_mem _ hp))

/-- Claim C9: the verbatim canonical-locator fallback bypasses exclusion
filtering.  For any extractor state and any locator whose stripped form is
non-empty, matches none of the compiled patterns, and passes the
looks-like-an-ID heuristic, `extract_from_canonical_locator` returns the
stripped locator verbatim at confidence 0.80 and method
`canonical_locator`/`direct` — no hypothesis about the exclusion patterns
is needed, so an excluded string (such as `"500 mg"`, which fullmatches the
dosage-unit exclusion) is still returned as the provision id. -/
theorem canonical_fallback_bypasses_exclusions (E : ProvisionIDExtractor)
    (locator : String)
    (hne : pyStrip locator ≠ "")
    (hnomatch : ∀ p ∈ E.PATTERNS, p.2 (pyStrip locator) = none)
    (hlooks : _looks_like_id (pyStrip locator) = true) :
    extract_from_canonical_locator E locator
      = ⟨pyStrip locator, 80, "canonical_locator", some "direct"⟩ := by
  rw [extract_from_canonical_locator, if_neg hne]
  simp [canonLoop_all_none E (pyStrip locator) E.PATTERNS hnomatch, hlooks]

/-- Witness for C9 at the spec's instance: an extractor whose exclusion list
holds the dosage-unit fullmatcher still returns `"500 mg"` verbatim, even
though `"500 mg"` is excluded. -/
theorem canonical_fallback_bypasses_exclusions_witness :
    extract_from_canonical_locator ⟨[("p1", fun _ => none)], [], [exclusion_mg]⟩ "500 mg"
      = ⟨"500 mg", 80, "canonical_locator", some "direct"⟩
    ∧ _is_excluded ⟨[("p1", fun _ => none)], [], [exclusion_mg]⟩ "500 mg" = true := by
  have h := canonical_fallback_bypasses_exclusions
    ⟨[("p1", fun _ => none)], [], [exclusion_mg]⟩ "500 mg"
    (by decide)
    (by
      intro p hp
      rw [List.mem_singleton] at hp
      subst hp
      rfl)
    (by decide)
  exact ⟨h, by decide⟩

/-! ### ID validation (C10) -/

theorem takeWhile_ne_nil_any (p : Char → Bool) (l : List Char)
    (h : l.takeWhile p ≠ []) : l.any p = true := by
  cases l with
  | nil => simp [List.takeWhile] at h
  | cons c rest =>
    by_cases hp : p c
    · simp [List.any_cons, hp]
    · simp [List.takeWhile_cons, hp] at h

theorem numericMatch_any_digit (s : String) (h : numericMatch s = true) :
    s.data.any Char.isDigit = true := by
  unfold numericMatch at h
  simp only [Bool.and_eq_true, Bool.not_eq_true'] at h
  exact takeWhile_ne_nil_any _ _ (by simpa [List.isEmpty_iff] using h.1)

theorem numericMatch_length_pos (s : String) (h : numericMatch s = true) :
    1 ≤ s.length := by
  unfold numericMatch at h
  simp only [Bool.and_eq_true, Bool.not_eq_true'] at h
  have hne : s.data.takeWhile Char.isDigit ≠ [] := by
    simpa [List.isEmpty_iff] using h.1
  have : s.data ≠ [] := by
    intro he
    rw [he] at hne
    simp [List.takeWhile] at hne
  show 1 ≤ s.data.length
  cases hd : s.data with
  | nil => exact absurd hd this
  | cons c rest => simp

theorem dottedNumericMatch_any_digit (s : String) (h : dottedNumericMatch s = true) :
    s.data.any Char.isDigit = true := by
  unfold dottedNumericMatch at h
  simp only [Bool.and_eq_true, Bool.not_eq_true'] at h
  exact takeWhile_ne_nil_any _ _ (by simpa [List.isEmpty_iff] using h.1)

/-- Counterexample to C10 as stated: `"Schedule IV"` contains no digit and
is not `"UNKNOWN"`, so the claim requires `validate` to reject it for every
authority — but with authority `"Health Canada"` the default format rule
`^Schedule\s+[IVX]+$` matches first and `validate` accepts it. -/
theorem validate_schedule_iv_counterexample :
    validate defaultValidator "Schedule IV" "Health Canada"
      = (true, "Matches Health Canada format")
    ∧ "Schedule IV".data.any Char.isDigit = false
    ∧ "Schedule IV" ≠ "UNKNOWN" := by
  refine ⟨by decide, by decide, by decide⟩

/-- Claim C10 (amended): `validate` returns `(False, reason)` if and only if
the id is not the literal `"UNKNOWN"` and is either empty, longer than 50
characters, a pure-numeric match longer than 5 characters, or contains no
digit at all *while no format rule configured for the authority matches it*
(the authority-format check runs before the digit requirement, so a
digitless id such as `"Schedule IV"` under `"Health Canada"` is accepted).
In particular `validate "UNKNOWN"` always succeeds, and every string with a
digit of length 1–50 that is not an over-long pure number is accepted. -/
theorem validate_false_iff (V : ProvisionIDValidator) (pid auth : String) :
    (validate V pid auth).1 = false ↔
      (pid ≠ "UNKNOWN" ∧
        (pid.length < 1 ∨ pid.length > 50 ∨
         (numericMatch pid = true ∧ pid.length > 5) ∨
         (numericMatch pid = false ∧ formatRuleMatches V pid auth = false ∧
          pid.data.any Char.isDigit = false))) := by
  unfold validate validateGeneric
  split_ifs with h1 h2 h3 h4 h5 h6 h7 h8 h9 h10
  · simp [h1]
  · simp [h1, h2]
  · simp [h1, h3]
  · simp [h1, h4]
    omega
  · simp [h1, h4]
    omega
  · replace h4 : numericMatch pid = false := by simpa using h4
    have hdig := dottedNumericMatch_any_digit pid h6
    simp [h1, h4, hdig]
    omega
  · replace h4 : numericMatch pid = false := by simpa using h4
    simp [h1, h4, h7]
    omega
  · replace h4 : numericMatch pid = false := by simpa using h4
    replace h7 : formatRuleMatches V pid auth = false := by simpa using h7
    replace h8 : pid.data.any Char.isDigit = false := by simpa using h8
    simp [h1, h4, h7, h8]
  · replace h4 : numericMatch pid = false := by simpa using h4
    replace h8 : pid.data.any Char.isDigit = true := by simpa using h8
    simp [h1, h4, h8]
    omega
  · replace h4 : numericMatch pid = false := by simpa using h4
    replace h8 : pid.data.any Char.isDigit = true := by simpa using h8
    simp [h1, h4, h8]
    omega
  · replace h4 : numericMatch pid = false := by simpa using h4
    replace h8 : pid.data.any Char.isDigit = true := by simpa using h8
    simp [h1, h4, h8]
    omega

/-! ### Result reconciliation (C7) -/

theorem process_results_foldl (mode : Bool) (loader : String → JDict → Bool)
    (lines : List ResultLine) :
    ∀ s0 : Stats,
      lines.foldl (fun s line => bumpStats s (classifyLine mode loader line)) s0
        = ⟨s0.success + (lines.countP (fun l => classifyLine mode loader l == .success)),
           s0.failed + (lines.countP (fun l => classifyLine mode loader l == .failed)),
           s0.skipped + (lines.countP (fun l => classifyLine mode loader l == .skipped))⟩ := by
  induction lines with
  | nil =>
    intro s0
    cases s0
    simp
  | cons line rest ih =>
    intro s0
    rw [List.foldl_cons, ih]
    rcases hc : classifyLine mode loader line with _ | _ | _ <;>
      simp [bumpStats, hc, List.countP_cons] <;>
      omega

theorem countP_classify_total (mode : Bool) (loader : String → JDict → Bool)
    (lines : List ResultLine) :
    lines.countP (fun l => classifyLine mode loader l == .success)
      + lines.countP (fun l => classifyLine mode loader l == .failed)
      + lines.countP (fun l => classifyLine mode loader l == .skipped)
      = lines.length := by
  induction lines with
  | nil => simp
  | cons line rest ih =>
    rcases hc : classifyLine mode loader line with _ | _ | _ <;>
      simp [List.countP_cons, hc] <;>
      omega

/-- Claim C7: every result line lands in exactly one cumulative counter
(the three counters sum to the number of lines, and each equals the count
of lines classified that way), and the classification order is: a truthy
`error` field is failed before any content is read; empty `choices` is
skipped; a malformed content payload is failed; a parsed payload whose
`entities` (ontology mode) / `requirements` (domain mode) field is falsy is
skipped; otherwise the line is handed to the loader and is a success
exactly when the loader succeeds. -/
theorem process_results_spec (mode : Bool) (loader : String → JDict → Bool)
    (lines : List ResultLine) :
    ((process_results mode loader lines).success
        + (process_results mode loader lines).failed
        + (process_results mode loader lines).skipped = lines.length)
    ∧ process_results mode loader lines
        = ⟨lines.countP (fun l => classifyLine mode loader l == .success),
           lines.countP (fun l => classifyLine mode loader l == .failed),
           lines.countP (fun l => classifyLine mode loader l == .skipped)⟩
    ∧ (∀ line : ResultLine, line.has_error = true →
        classifyLine mode loader line = .failed)
    ∧ (∀ line : ResultLine, line.has_error = false → line.choices_empty = true →
        classifyLine mode loader line = .skipped)
    ∧ (∀ line : ResultLine, line.has_error = false → line.choices_empty = false →
        line.content = .malformed → classifyLine mode loader line = .failed)
    ∧ (∀ line : ResultLine, ∀ payload : JDict, line.has_error = false →
        line.choices_empty = false → line.content = .parsed payload →
        pyTruthy ((jlookup payload (if mode then "entities" else "requirements")).getD .null)
          = false →
        classifyLine mode loader line = .skipped)
    ∧ (∀ line : ResultLine, ∀ payload : JDict, line.has_error = false →
        line.choices_empty = false → line.content = .parsed payload →
        pyTruthy ((jlookup payload (if mode then "entities" else "requirements")).getD .null)
          = true →
        (classifyLine mode loader line = .success ↔ loader line.custom_id payload = true)) := by
  have hfold := process_results_foldl mode loader lines ⟨0, 0, 0⟩
  refine ⟨?_, ?_, ?_, ?_, ?_, ?_, ?_⟩
  · rw [process_results, hfold]
    simpa using countP_classify_total mode loader lines
  · rw [process_results, hfold]
    simp
  · intro line he
    simp [classifyLine, he]
  · intro line he hc
    simp [classifyLine, he, hc]
  · intro line he hc hm
    simp [classifyLine, he, hc, hm]
  · intro line payload he hc hm hf
    simp [classifyLine, he, hc, hm, hf]
  · intro line payload he hc hm hf
    simp [classifyLine, he, hc, hm, hf]

/-- Witness for C7: a results file with one error-bearing line and one
well-formed entity line (with a succeeding loader) yields
success = 1, failed = 1, skipped = 0, and the per-line classifications are
as claimed. -/
theorem process_results_spec_witness :
    process_results true (fun _ _ => true)
      [⟨"f1", true, false, .malformed⟩,
       ⟨"f2", false, false, .parsed [("entities", .arr [.obj [("name", .str "A")]])]⟩]
      = ⟨1, 1, 0⟩
    ∧ (process_results true (fun _ _ => true)
        [⟨"f1", true, false, .malformed⟩,
         ⟨"f2", false, false, .parsed [("entities", .arr [.obj [("name", .str "A")]])]⟩]).success
      + (process_results true (fun _ _ => true)
        [⟨"f1", true, false, .malformed⟩,
         ⟨"f2", false, false, .parsed [("entities", .arr [.obj [("name", .str "A")]])]⟩]).failed
      + (process_results true (fun _ _ => true)
        [⟨"f1", true, false, .malformed⟩,
         ⟨"f2", false, false, .parsed [("entities", .arr [.obj [("name", .str "A")]])]⟩]).skipped
      = 2
    ∧ classifyLine true (fun _ _ => true) ⟨"f1", true, false, .malformed⟩ = .failed
    ∧ (classifyLine true (fun _ _ => true)
          ⟨"f2", false, false, .parsed [("entities", .arr [.obj [("name", .str "A")]])]⟩
        = .success
       ↔ (fun (_ : String) (_ : JDict) => true) "f2"
          [("entities", JVal.arr [.obj [("name", JVal.str "A")]])] = true) := by
  have h := process_results_spec true (fun _ _ => true)
    [⟨"f1", true, false, .malformed⟩,
     ⟨"f2", false, false, .parsed [("entities", .arr [.obj [("name", .str "A")]])]⟩]
  exact ⟨rfl, h.1,
    h.2.2.1 ⟨"f1", true, false, .malformed⟩ rfl,
    h.2.2.2.2.2.2 ⟨"f2", false, false, .parsed [("entities", .arr [.obj [("name", .str "A")]])]⟩
      [("entities", .arr [.obj [("name", .str "A")]])] rfl rfl rfl rfl⟩

/-! ### Batch status polling (C8) -/

theorem watchTrace_succ (st : Nat → String) (k : Nat) :
    watchTrace st (k + 1)
      = .fetch (st 0) :: .sleep 60 :: watchTrace (fun j => st (j + 1)) k := by
  unfold watchTrace
  rw [List.range_succ_eq_map]
  simp [List.flatMap_cons, List.flatMap_map, Nat.succ_eq_add_one, Nat.add_comm]

theorem check_status_run_watch (st : Nat → String) :
    ∀ fuel i tr, check_status_run true st fuel i = some tr →
      ∃ k, isTerminalStatus (st (i + k)) = true
        ∧ (∀ j, j < k → isTerminalStatus (st (i + j)) = false)
        ∧ tr = watchTrace (fun j => st (i + j)) k := by
  intro fuel
  induction fuel with
  | zero => intro i tr h; simp [check_status_run] at h
  | succ fuel ih =>
    intro i tr h
    rw [check_status_run] at h
    by_cases ht : isTerminalStatus (st i) = true
    · rw [if_pos ht] at h
      refine ⟨0, by simpa using ht, by omega, ?_⟩
      simp only [Option.some_inj] at h
      subst h
      simp [watchTrace]
    · rw [if_neg ht, if_pos rfl] at h
      rcases Option.map_eq_some'.mp h with ⟨tr', htr', rfl⟩
      obtain ⟨k, hk1, hk2, hk3⟩ := ih (i + 1) tr' htr'
      refine ⟨k + 1, ?_, ?_, ?_⟩
      · rw [show i + (k + 1) = i + 1 + k by omega]
        exact hk1
      · intro j hj
        cases j with
        | zero => simpa using eq_false_of_ne_true ht
        | succ j' =>
          rw [show i + (j' + 1) = i + 1 + j' by omega]
          exact hk2 j' (by omega)
      · rw [watchTrace_succ, hk3]
        have : (fun j => st (i + (j + 1))) = (fun j => st (i + 1 + j)) := by
          funext j
          rw [show i + (j + 1) = i + 1 + j by omega]
        rw [this]
        simp

/-- Claim C8: batch status polling.  In single-shot mode (`watch = False`)
the loop returns after exactly one status fetch, whatever the observed
status, with no sleep; in watch mode it returns only once the fetched
status is terminal (`completed`/`failed`/`expired`/`cancelled`): every
earlier fetch observed a non-terminal status, with a fixed 60-second sleep
between consecutive fetches.  The loop's trace contains only fetch and
sleep events — it issues no mutation. -/
theorem check_status_spec :
    (∀ (st : Nat → String) (fuel : Nat), 0 < fuel →
      check_status false st fuel = some [.fetch (st 0)])
    ∧ (∀ (st : Nat → String) (fuel : Nat) (tr : List PollEvent),
        check_status true st fuel = some tr →
        ∃ k, isTerminalStatus (st k) = true
          ∧ (∀ j, j < k → isTerminalStatus (st j) = false)
          ∧ tr = watchTrace st k) := by
  constructor
  · intro st fuel hf
    rcases fuel with _ | fuel
    · omega
    · rw [check_status, check_status_run]
      by_cases ht : isTerminalStatus (st 0) = true
      · rw [if_pos ht]
      · rw [if_neg ht, if_neg (by simp)]
  · intro st fuel tr h
    have h' := check_status_run_watch st fuel 0 tr h
    simpa using h'

/-- Witness for C8: a non-terminal status stream returns after one fetch in
single-shot mode; in watch mode a stream that turns `completed` on the
third fetch yields the fetch/sleep-60 alternating trace, certified
terminal-only-at-the-end by the theorem. -/
theorem check_status_spec_witness :
    check_status false (fun _ => "in_progress") 5 = some [.fetch "in_progress"]
    ∧ ∃ k, isTerminalStatus ((fun n => if n < 2 then "in_progress" else "completed") k) = true
        ∧ (∀ j, j < k →
            isTerminalStatus ((fun n => if n < 2 then "in_progress" else "completed") j) = false)
        ∧ [PollEvent.fetch "in_progress", .sleep 60, .fetch "in_progress", .sleep 60,
           .fetch "completed"]
          = watchTrace (fun n => if n < 2 then "in_progress" else "completed") k :=
  ⟨check_status_spec.1 (fun _ => "in_progress") 5 (by omega),
   check_status_spec.2 (fun n => if n < 2 then "in_progress" else "completed") 10
     [PollEvent.fetch "in_progress", .sleep 60, .fetch "in_progress", .sleep 60,
      .fetch "completed"] rfl⟩

/-! ### Prompt building (C1) -/

/-- Claim C1 (code evaluation at the failing input): with a profile whose
ontology has no node definitions and no `json_schema` (the pydantic
defaults — the `default` profile's shape), `build_prompt` does not raise a
configuration error: it returns the legacy Provision/Requirement/Constraint
prompt pair.  The repository's own test
(`tests/test_domain.py::TestBuildPrompt::test_raises_without_ontology`)
requires `ValueError("Ontology with nodes and json_schema is required")`
here, so the code, not the claim, is at fault. -/
theorem build_prompt_no_ontology_falls_back :
    build_prompt "Test text." "TestAuth" "CA" (bareProfile "Test")
      = _build_regulatory_prompt "Test text." defaultParsingConfig "TestAuth" "CA" := by
  rfl

end BuildKG
